import Mathlib

/-!
# Verification of the voxflow recording/transcription core

Shallow embedding of the voxflow dictation utility's core (Go sources:
`internal/hotkey` manager, `app.go` session controller and pipeline,
`internal/audio/recorder.go`), together with proofs of the specified
properties of the hotkey parser, the trigger state machine, the
reconfiguration logic, the audio recorder and the processing pipeline.

External collaborators (the OS hotkey registry, PortAudio, the Whisper
binary, the Gemini HTTP API, the file system) are modelled as explicit
parameters/oracles; everything else is translated directly from the source.
-/

deriving instance DecidableEq for Except

namespace Voxflow

/-! ## Hotkey data model (`internal/hotkey`, golang.design/x/hotkey tokens) -/

/-- Hotkey modifiers, as in the golang.design/x/hotkey package
(`ModCmd`, `ModCtrl`, `ModShift`, `ModOption`). -/
inductive Modifier where
  | ModCmd
  | ModCtrl
  | ModShift
  | ModOption
deriving DecidableEq, Repr

/-- Hotkey terminal keys: the keys appearing in `parseKey`'s key map. -/
inductive Key where
  | KeyA | KeyB | KeyC | KeyD | KeyE | KeyF | KeyG | KeyH | KeyI
  | KeyJ | KeyK | KeyL | KeyM | KeyN | KeyO | KeyP | KeyQ | KeyR
  | KeyS | KeyT | KeyU | KeyV | KeyW | KeyX | KeyY | KeyZ
  | Key0 | Key1 | Key2 | Key3 | Key4 | Key5 | Key6 | Key7 | Key8 | Key9
  | KeySpace | KeyReturn | KeyEscape | KeyTab
deriving DecidableEq, Repr

/-- ASCII lowercasing of one character, as `strings.ToLower` acts on the
ASCII hotkey strings this program deals in. -/
def lowerChar (c : Char) : Char :=
  if 'A' ≤ c ∧ c ≤ 'Z' then Char.ofNat (c.toNat + 32) else c

/-- `strings.Split(s, "+")` on a character list: split at every `'+'`.
`strings.Split` always returns at least one (possibly empty) part. -/
def splitPlus : List Char → List (List Char)
  | [] => [[]]
  | c :: cs =>
    if c = '+' then
      [] :: splitPlus cs
    else
      match splitPlus cs with
      | [] => [[c]]
      | p :: ps => (c :: p) :: ps

/-- The `'+'`-separated parts of the lowercased input, as computed by the
first line of `parseHotkey`: `strings.Split(strings.ToLower(hotkeyStr), "+")`. -/
def lowerParts (s : String) : List String :=
  (splitPlus (s.data.map lowerChar)).map String.mk

/-- One iteration of the modifier loop in `parseHotkey`: the `switch part`
over the known modifier tokens. -/
def parseModifier (part : String) : Except String Modifier :=
  match part with
  | "cmd" | "command" | "super" => .ok .ModCmd
  | "ctrl" | "control" => .ok .ModCtrl
  | "shift" => .ok .ModShift
  | "alt" | "option" | "opt" => .ok .ModOption
  | _ => .error ("unknown modifier: " ++ part)

/-- The modifier loop of `parseHotkey` over `parts[:len(parts)-1]`:
collect modifiers, returning the first unknown-modifier error. -/
def parseModifiers : List String → Except String (List Modifier)
  | [] => .ok []
  | p :: ps =>
    match parseModifier p with
    | .error e => .error e
    | .ok m =>
      match parseModifiers ps with
      | .error e => .error e
      | .ok ms => .ok (m :: ms)

/-- `parseKey`: converts a key string to a `Key` via the key map. -/
def parseKey (keyStr : String) : Except String Key :=
  match keyStr with
  | "a" => .ok .KeyA | "b" => .ok .KeyB | "c" => .ok .KeyC
  | "d" => .ok .KeyD | "e" => .ok .KeyE | "f" => .ok .KeyF
  | "g" => .ok .KeyG | "h" => .ok .KeyH | "i" => .ok .KeyI
  | "j" => .ok .KeyJ | "k" => .ok .KeyK | "l" => .ok .KeyL
  | "m" => .ok .KeyM | "n" => .ok .KeyN | "o" => .ok .KeyO
  | "p" => .ok .KeyP | "q" => .ok .KeyQ | "r" => .ok .KeyR
  | "s" => .ok .KeyS | "t" => .ok .KeyT | "u" => .ok .KeyU
  | "v" => .ok .KeyV | "w" => .ok .KeyW | "x" => .ok .KeyX
  | "y" => .ok .KeyY | "z" => .ok .KeyZ
  | "0" => .ok .Key0 | "1" => .ok .Key1 | "2" => .ok .Key2
  | "3" => .ok .Key3 | "4" => .ok .Key4 | "5" => .ok .Key5
  | "6" => .ok .Key6 | "7" => .ok .Key7 | "8" => .ok .Key8
  | "9" => .ok .Key9
  | "space" => .ok .KeySpace
  | "return" => .ok .KeyReturn | "enter" => .ok .KeyReturn
  | "escape" => .ok .KeyEscape | "esc" => .ok .KeyEscape
  | "tab" => .ok .KeyTab
  | _ => .error ("unknown key: " ++ keyStr)

/-- `parseHotkey`: converts a string like `"cmd+shift+v"` to modifiers and a
key. Splits the lowercased input on `'+'`, requires at least two parts,
parses all but the last part as modifiers and the last part as the key. -/
def parseHotkey (hotkeyStr : String) : Except String (List Modifier × Key) :=
  let parts := lowerParts hotkeyStr
  if parts.length < 2 then
    .error ("invalid hotkey format: " ++ hotkeyStr)
  else
    match parseModifiers parts.dropLast with
    | .error e => .error e
    | .ok mods =>
      match parseKey (parts.getLastD "") with
      | .error e => .error e
      | .ok key => .ok (mods, key)

/-! ## Trigger state machine (`internal/hotkey` Manager) -/

/-- `State`: the current app state (`StateIdle`, `StateRecording`,
`StateProcessing`). -/
inductive State where
  | StateIdle
  | StateRecording
  | StateProcessing
deriving DecidableEq, Repr, Fintype

/-- The `String()` method of `State`. -/
def State.str : State → String
  | .StateIdle => "Idle"
  | .StateRecording => "Recording"
  | .StateProcessing => "Processing"

/-- `TriggerType`: what triggered the recording. -/
inductive TriggerType where
  | TriggerNone
  | TriggerHandsFree
  | TriggerPushToTalk
deriving DecidableEq, Repr, Fintype

/-- The mutable fields of the hotkey `Manager` that the event handlers and
`SetState` touch: `state`, `activeTrigger` and the `running` flag. The
registered hotkey objects are modelled separately (see `Bindings`), and the
mutex serializing access is implicit in the sequential embedding. -/
structure ManagerState where
  state : State
  activeTrigger : TriggerType
  running : Bool
deriving DecidableEq, Repr, Fintype

/-- `Manager.SetState`: sets the current state; resets `activeTrigger` to
`TriggerNone` only when the new state is `StateIdle`. -/
def Manager.SetState (m : ManagerState) (s : State) : ManagerState :=
  let m := { m with state := s }
  if s = .StateIdle then { m with activeTrigger := .TriggerNone } else m

/-- `Manager.handleHandsFree`: the hands-free press handler. Returns the
updated manager state and `some newState` when the state-change callback is
invoked (with that state), `none` when it is not. -/
def Manager.handleHandsFree (m : ManagerState) : ManagerState × Option State :=
  if m.running = false then (m, none)
  else
    match m.state with
    | .StateIdle =>
      let m := { m with state := .StateRecording, activeTrigger := .TriggerHandsFree }
      (m, some m.state)
    | .StateRecording =>
      if m.activeTrigger = .TriggerHandsFree ∨ m.activeTrigger = .TriggerNone then
        let m := { m with state := .StateProcessing, activeTrigger := .TriggerNone }
        (m, some m.state)
      else
        (m, none)
    | .StateProcessing => (m, none)

/-- `Manager.handlePushToTalkDown`: the push-to-talk press handler. -/
def Manager.handlePushToTalkDown (m : ManagerState) : ManagerState × Option State :=
  if m.running = false then (m, none)
  else
    if m.state = .StateIdle then
      let m := { m with state := .StateRecording, activeTrigger := .TriggerPushToTalk }
      (m, some m.state)
    else
      (m, none)

/-- `Manager.handlePushToTalkUp`: the push-to-talk release handler. -/
def Manager.handlePushToTalkUp (m : ManagerState) : ManagerState × Option State :=
  if m.running = false then (m, none)
  else
    if m.state = .StateRecording ∧ m.activeTrigger = .TriggerPushToTalk then
      let m := { m with state := .StateProcessing, activeTrigger := .TriggerNone }
      (m, some m.state)
    else
      (m, none)

/-- The manager state right after `Manager.Start` set `running = true`
(initial state `StateIdle`, trigger `TriggerNone` from `NewManager`). -/
def startedManager : ManagerState :=
  { state := .StateIdle, activeTrigger := .TriggerNone, running := true }

/-! ## Session controller (`app.go`, current variant) -/

/-- The mutable fields of the audio `Recorder` relevant to `Start`/`Stop`:
the recording flag, whether a PortAudio stream is open, and the sample
buffer (samples as integers; the capture loop that appends to the buffer is
a collaborator and is represented by whatever the buffer holds at `Stop`
time). -/
structure RecorderState where
  recording : Bool
  streamOpen : Bool
  buffer : List Int
deriving DecidableEq, Repr

/-- Observable effects the controller and pipeline produce: Wails event
emissions, collaborator calls (transcription, refinement, history,
clipboard/injection) and sleeps. -/
inductive Emit where
  | stateChanged (s : State)
  | recordingStarted
  | recordingStopped
  | errorEvent (msg : String)
  | toast (msg : String) (kind : String)
  | transcribeAttempt (n : Nat)
  | sleepMs (ms : Nat)
  | refineCall (text : String) (mode : String)
  | historySave (raw : String) (polished : String)
  | clipboardCopy (text : String)
  | injectText (text : String)
  | processingComplete (polished : String)
deriving DecidableEq, Repr

/-- The `App` fields driving the recording lifecycle: the app's own state
mirror, the hotkey manager, the model-ready flag, and the audio recorder. -/
structure App where
  state : State
  mgr : ManagerState
  modelReady : Bool
  recorder : RecorderState
deriving DecidableEq, Repr

/-- `Recorder.Start`: fails if already recording; clears the buffer; opens
the default input stream and starts it. The two PortAudio calls that can
fail for environmental reasons are modelled by the oracles `openOk` and
`startOk`. Returns the new recorder state and `some errMsg` on failure. -/
def Recorder.Start (r : RecorderState) (openOk startOk : Bool) :
    RecorderState × Option String :=
  if r.recording then (r, some "already recording")
  else
    let r := { r with buffer := [] }
    if openOk = false then (r, some "failed to open audio stream")
    else
      let r := { r with streamOpen := true, recording := true }
      if startOk = false then
        ({ r with recording := false }, some "failed to start audio stream")
      else
        (r, none)

/-- `App.StartRecording`: guarded only by `modelReady`; sets `state` and the
manager state to `StateRecording`, starts the recorder, and rolls back to
`StateIdle` (emitting an `error` event) if the recorder fails to start. -/
def App.StartRecording (a : App) (openOk startOk : Bool) :
    App × Except String Unit × List Emit :=
  if a.modelReady = false then (a, .error "model not ready", [])
  else
    let a := { a with state := .StateRecording,
                      mgr := Manager.SetState a.mgr .StateRecording }
    match Recorder.Start a.recorder openOk startOk with
    | (r, some err) =>
      let a := { a with recorder := r, state := .StateIdle,
                        mgr := Manager.SetState a.mgr .StateIdle }
      (a, .error err, [.errorEvent err])
    | (r, none) =>
      ({ a with recorder := r }, .ok (),
       [.stateChanged .StateRecording, .recordingStarted])

/-- `App.StopRecording` (synchronous part): sets `state` and the manager
state to `StateProcessing` and emits the notifications; the pipeline
(`processRecording`) is launched as separate work and modelled by
`processRecording` below. -/
def App.StopRecording (a : App) : App × List Emit :=
  let a := { a with state := .StateProcessing,
                    mgr := Manager.SetState a.mgr .StateProcessing }
  (a, [.stateChanged .StateProcessing, .recordingStopped])

/-- `App.ToggleRecording`: switch on the app state; Idle starts, Recording
stops, anything else returns the state string unchanged. -/
def App.ToggleRecording (a : App) (openOk startOk : Bool) :
    App × String × List Emit :=
  match a.state with
  | .StateIdle =>
    match App.StartRecording a openOk startOk with
    | (a, .error e, es) => (a, "Error: " ++ e, es)
    | (a, .ok _, es) => (a, "Recording", es)
  | .StateRecording =>
    let (a, es) := App.StopRecording a
    (a, "Processing", es)
  | .StateProcessing => (a, State.str a.state, [])

/-! ## C1: the ActiveTrigger/AppState ownership invariant -/

/-- The spec's ownership invariant: `ActiveTrigger != None` implies
`AppState == Recording`. -/
def triggerInvariant (m : ManagerState) : Prop :=
  m.activeTrigger ≠ .TriggerNone → m.state = .StateRecording

instance (m : ManagerState) : Decidable (triggerInvariant m) := by
  unfold triggerInvariant; infer_instance

/-- The events that drive the manager state: the three hotkey events, plus
the controller's `SetState` mirrors from `App.StartRecording`
(`SetState(StateRecording)`) and from pipeline completion / `resetToIdle`
(`SetState(StateIdle)`). `App.StopRecording`'s `SetState(StateProcessing)`
is deliberately listed separately (see the counterexample). -/
inductive CoreEvent where
  | handsFreePress
  | pushToTalkPress
  | pushToTalkRelease
  | controllerStartRecording
  | pipelineFinish
deriving DecidableEq, Repr, Fintype

/-- Effect of one event on the manager state (callback result dropped). -/
def applyEvent (m : ManagerState) : CoreEvent → ManagerState
  | .handsFreePress => (Manager.handleHandsFree m).1
  | .pushToTalkPress => (Manager.handlePushToTalkDown m).1
  | .pushToTalkRelease => (Manager.handlePushToTalkUp m).1
  | .controllerStartRecording => Manager.SetState m .StateRecording
  | .pipelineFinish => Manager.SetState m .StateIdle

/-- Run a sequence of events. -/
def runEvents (m : ManagerState) (es : List CoreEvent) : ManagerState :=
  es.foldl applyEvent m

/-- Every `CoreEvent` preserves the ownership invariant. -/
theorem applyEvent_preserves_triggerInvariant :
    ∀ (m : ManagerState) (e : CoreEvent),
      triggerInvariant m → triggerInvariant (applyEvent m e) := by
  decide

/-- C1 (counterexample): a hands-free press takes a running manager from
Idle to Recording with `ActiveTrigger = TriggerHandsFree`; the UI then stops
the recording through `App.ToggleRecording` → `App.StopRecording`, whose
`SetState(StateProcessing)` does not reset the trigger. The result has
`ActiveTrigger ≠ TriggerNone` while the state is `StateProcessing`, so the
claimed invariant fails and the trigger was not reset on this transition out
of Recording. -/
theorem setStateProcessing_violates_triggerInvariant :
    (fun m1 =>
      (fun a2 => a2.mgr.activeTrigger = .TriggerHandsFree ∧
                 a2.mgr.state = .StateProcessing ∧ ¬ triggerInvariant a2.mgr)
        (App.ToggleRecording
          { state := .StateRecording, mgr := m1, modelReady := true,
            recorder := { recording := true, streamOpen := true, buffer := [] } }
          true true).1)
      (Manager.handleHandsFree startedManager).1 := by
  decide

/-- C1 (amended): for every sequence of trigger events and controller
operations other than `SetState(StateProcessing)` — hands-free press,
push-to-talk press/release, `StartRecording`'s `SetState(StateRecording)`,
and pipeline completion's `SetState(StateIdle)` — the invariant
`ActiveTrigger ≠ TriggerNone → AppState = StateRecording` holds from the
started manager: the handlers reset the trigger on their transitions out of
Recording and `SetState` resets it on the transition to Idle. (The
transition to Processing via `SetState`, used by `App.StopRecording`, does
not reset it — see the counterexample.) -/
theorem triggerInvariant_holds_for_event_sequences :
    ∀ es : List CoreEvent, triggerInvariant (runEvents startedManager es) := by
  have hstart : triggerInvariant startedManager := by decide
  have general : ∀ (es : List CoreEvent) (m : ManagerState),
      triggerInvariant m → triggerInvariant (runEvents m es) := by
    intro es
    induction es with
    | nil => exact fun m hm => hm
    | cons e es ih =>
      exact fun m hm => ih (applyEvent m e) (applyEvent_preserves_triggerInvariant m e hm)
  exact fun es => general es startedManager hstart

/-- Witness for C1 (amended) on a concrete full cycle: hands-free press,
controller start, push-to-talk press (ignored), hands-free press (stop),
pipeline finish. -/
theorem triggerInvariant_holds_for_event_sequences_witness :
    triggerInvariant (runEvents startedManager
      [.handsFreePress, .controllerStartRecording, .pushToTalkPress,
       .handsFreePress, .pipelineFinish]) :=
  triggerInvariant_holds_for_event_sequences
    [.handsFreePress, .controllerStartRecording, .pushToTalkPress,
     .handsFreePress, .pipelineFinish]

/-! ## C7: push-to-talk release while another trigger owns the recording -/

/-- C7: a push-to-talk release delivered while the manager is Recording and
the active trigger is anything other than `TriggerPushToTalk` is a no-op:
the manager state is unchanged and the state-change callback is not
invoked. -/
theorem pushToTalkUp_noop_when_not_owner :
    ∀ m : ManagerState, m.running = true → m.state = .StateRecording →
      m.activeTrigger ≠ .TriggerPushToTalk →
      Manager.handlePushToTalkUp m = (m, none) := by
  decide

/-- Witness for C7 at the hands-free-owned recording state. -/
theorem pushToTalkUp_noop_when_not_owner_witness :
    (fun m => m.running = true ∧ m.state = .StateRecording ∧
              m.activeTrigger ≠ .TriggerPushToTalk ∧
              Manager.handlePushToTalkUp m = (m, none))
      { state := .StateRecording, activeTrigger := .TriggerHandsFree, running := true } :=
  ⟨rfl, rfl, by decide,
   pushToTalkUp_noop_when_not_owner
     { state := .StateRecording, activeTrigger := .TriggerHandsFree, running := true }
     rfl rfl (by decide)⟩

/-! ## C5: recording requests while Processing -/

/-- C5 (counterexample): `App.StartRecording` checks only `modelReady`, not
the current state. Called while `state = StateProcessing` (with the model
ready and the recorder already stopped by the in-flight pipeline, the
situation after `processRecording` ran `Recorder.Stop`), it is NOT
rejected: it returns success, starts audio capture, emits notifications and
moves the state from Processing to Recording. -/
theorem startRecording_not_rejected_while_processing :
    (fun out =>
      out.2.1 = .ok () ∧
      out.1.state = .StateRecording ∧
      out.1.recorder.recording = true ∧
      out.2.2 = [.stateChanged .StateRecording, .recordingStarted])
      (App.StartRecording
        { state := .StateProcessing,
          mgr := { state := .StateProcessing, activeTrigger := .TriggerNone,
                   running := true },
          modelReady := true,
          recorder := { recording := false, streamOpen := false, buffer := [] } }
        true true) := by
  decide

/-- C5 (amended): a recording request arriving while the state is
`StateProcessing` through any of the real entry points — the UI's
`App.ToggleRecording` or a hotkey press handled by the manager — is
rejected without side effects: `ToggleRecording` returns the string
"Processing" leaving the app untouched and emitting nothing, and the
trigger handlers leave the manager unchanged without invoking the callback.
The bare `App.StartRecording` method, however, checks only model readiness
and does not reject while Processing (see the counterexample). -/
theorem recordingRequest_rejected_while_processing
    (a : App) (h : a.state = .StateProcessing) (openOk startOk : Bool) :
    App.ToggleRecording a openOk startOk = (a, "Processing", []) ∧
    (∀ m : ManagerState, m.state = .StateProcessing →
      Manager.handleHandsFree m = (m, none) ∧
      Manager.handlePushToTalkDown m = (m, none) ∧
      Manager.handlePushToTalkUp m = (m, none)) := by
  constructor
  · obtain ⟨st, mg, mr, rc⟩ := a
    dsimp only at h
    subst h
    rfl
  · decide

/-- Witness for C5 (amended) at a concrete Processing-state app. -/
theorem recordingRequest_rejected_while_processing_witness :
    (fun a : App => a.state = .StateProcessing ∧
      App.ToggleRecording a true true = (a, "Processing", []))
      { state := .StateProcessing,
        mgr := { state := .StateProcessing, activeTrigger := .TriggerNone,
                 running := true },
        modelReady := true,
        recorder := { recording := false, streamOpen := false, buffer := [] } } :=
  ⟨rfl,
   (recordingRequest_rejected_while_processing
     { state := .StateProcessing,
       mgr := { state := .StateProcessing, activeTrigger := .TriggerNone,
                running := true },
       modelReady := true,
       recorder := { recording := false, streamOpen := false, buffer := [] } }
     rfl true true).1⟩

/-! ## Audio recorder stop (`internal/audio/recorder.go`) -/

/-- `Recorder.Stop`: fails with "not recording" if not recording; otherwise
clears the recording flag, stops/closes/nils the stream, and serializes the
buffer (`saveToWav`): error "no audio data recorded" on an empty buffer,
otherwise the artifact. The artifact is modelled as the serialized sample
data (the temp-file path/timestamp and WAV header bytes are file-system
details abstracted to the data they carry). -/
def Recorder.Stop (r : RecorderState) : RecorderState × Except String (List Int) :=
  if r.recording = false then (r, .error "not recording")
  else
    let r := { r with recording := false }
    let r := if r.streamOpen then { r with streamOpen := false } else r
    if r.buffer = [] then (r, .error "no audio data recorded")
    else (r, .ok r.buffer)

/-! ## The transcribe → refine → deliver pipeline (`App.processRecording`,
current variant with retry) -/

/-- `maxRetries` in `processRecording`. -/
def maxRetries : Nat := 3

/-- The collaborators `processRecording` calls, as oracles: the result of
`Recorder.Stop` (wav path or error), the Whisper transcription result per
attempt number (1-based; the same wav file can transcribe differently on
retry), the Gemini refinement call, and the configured mode. -/
structure PipelineEnv where
  stopResult : Except String String
  transcribe : Nat → Except String String
  refine : String → String → Except String String
  mode : String

/-- The retry loop `for attempt := 1; attempt <= maxRetries; attempt++` of
`processRecording`: call `transcribe`; propagate a transcription error;
break on non-empty text; otherwise sleep 500 ms when `attempt < maxRetries`
and try again. Recursion is on the remaining attempts
(`fuel = maxRetries - attempt + 1`); the trace records each attempt and
sleep. The `fuel = 0` base case is never reached from `fuel = maxRetries ≥ 1`
and stands for the loop exiting with the last (empty) `rawText`. -/
def retryAux (tr : Nat → Except String String) :
    Nat → Nat → List Emit × Except String String
  | _, 0 => ([], .ok "")
  | attempt, fuel + 1 =>
    match tr attempt with
    | .error e => ([.transcribeAttempt attempt], .error e)
    | .ok raw =>
      if raw ≠ "" then ([.transcribeAttempt attempt], .ok raw)
      else if fuel = 0 then ([.transcribeAttempt attempt], .ok "")
      else
        let rest := retryAux tr (attempt + 1) fuel
        (.transcribeAttempt attempt :: .sleepMs 500 :: rest.1, rest.2)

/-- `App.processRecording` (current variant): stop the recorder; transcribe
with up to `maxRetries` attempts; handle empty text and the blank-audio
markers with warnings; refine with Gemini and abort (no raw-text fallback)
on error; on success save to history, copy to clipboard, inject, and emit
`processing-complete`. Returns the trace of effects and the final state set
via `resetToIdle`/the terminal transition (always `StateIdle`). -/
def processRecording (env : PipelineEnv) : List Emit × State :=
  match env.stopResult with
  | .error e =>
    ([.toast ("Failed to stop recording: " ++ e) "error",
      .stateChanged .StateIdle], .StateIdle)
  | .ok _wavPath =>
    let res := retryAux env.transcribe 1 maxRetries
    match res.2 with
    | .error e =>
      (res.1 ++ [.toast ("Transcription failed: " ++ e) "error",
                 .stateChanged .StateIdle], .StateIdle)
    | .ok rawText =>
      if rawText = "" then
        (res.1 ++
         [.toast "No audio was captured. Please try speaking louder or check your microphone." "warning",
          .stateChanged .StateIdle], .StateIdle)
      else if rawText = "[BLANK_AUDIO]" ∨ rawText = "(blank audio)" ∨
              rawText = "[NO SPEECH]" then
        (res.1 ++
         [.toast "No speech detected. Please try speaking into your microphone." "warning",
          .stateChanged .StateIdle], .StateIdle)
      else
        match env.refine rawText env.mode with
        | .error e =>
          (res.1 ++ [.refineCall rawText env.mode,
                     .toast ("Gemini error: " ++ e) "error",
                     .stateChanged .StateIdle], .StateIdle)
        | .ok polishedText =>
          (res.1 ++ [.refineCall rawText env.mode,
                     .historySave rawText polishedText,
                     .clipboardCopy polishedText,
                     .injectText polishedText,
                     .stateChanged .StateIdle,
                     .processingComplete polishedText], .StateIdle)

/-- The blank-audio marker allowlist of `processRecording` (the three
strings compared by exact equality). -/
def blankMarkers : List String := ["[BLANK_AUDIO]", "(blank audio)", "[NO SPEECH]"]

/-- Helper: the retry loop only ever emits transcription attempts and
500 ms sleeps. -/
theorem retryAux_emit_shape (tr : Nat → Except String String) :
    ∀ (f a : Nat) (em : Emit), em ∈ (retryAux tr a f).1 →
      (∃ n, em = .transcribeAttempt n) ∨ em = .sleepMs 500 := by
  intro f
  induction f with
  | zero => intro a em h; simp [retryAux] at h
  | succ f ih =>
    intro a em h
    rw [retryAux] at h
    rcases htr : tr a with e | raw <;> rw [htr] at h
    · simp at h; exact .inl ⟨a, h⟩
    · by_cases hraw : raw = ""
      · simp [hraw] at h
        by_cases hf : f = 0
        · simp [hf] at h; exact .inl ⟨a, h⟩
        · simp [hf] at h
          rcases h with h | h | h
          · exact .inl ⟨a, h⟩
          · exact .inr h
          · exact ih (a + 1) em h
      · simp [hraw] at h; exact .inl ⟨a, h⟩

/-! ## C8: double stop on the audio recorder -/

/-- C8: after a `Recorder.Stop` that succeeded (produced an artifact), a
second consecutive `Recorder.Stop` fails cleanly with the "not recording"
error: it returns the recorder state unchanged (the stream is not touched)
and returns an error instead of an artifact (nothing is produced, and
`saveToWav` — the only artifact-producing step — is not reached). -/
theorem stop_twice_fails_cleanly
    (r r1 : RecorderState) (art : List Int)
    (h : Recorder.Stop r = (r1, .ok art)) :
    Recorder.Stop r1 = (r1, .error "not recording") := by
  have hrec : r1.recording = false := by
    obtain ⟨rrec, rso, rbuf⟩ := r
    cases rrec with
    | false => simp [Recorder.Stop] at h
    | true =>
      by_cases hb : rbuf = ([] : List Int)
      · cases rso <;> simp [Recorder.Stop, hb] at h
      · cases rso <;> simp [Recorder.Stop, hb] at h <;>
          (obtain ⟨h1, -⟩ := h; rw [← h1])
  unfold Recorder.Stop
  rw [hrec]
  simp

/-- Witness for C8: a recorder mid-recording with one captured sample. -/
theorem stop_twice_fails_cleanly_witness :
    Recorder.Stop { recording := true, streamOpen := true, buffer := [1] } =
      ({ recording := false, streamOpen := false, buffer := [1] }, .ok [1]) ∧
    Recorder.Stop { recording := false, streamOpen := false, buffer := [1] } =
      ({ recording := false, streamOpen := false, buffer := [1] },
       .error "not recording") :=
  ⟨by decide,
   stop_twice_fails_cleanly
     { recording := true, streamOpen := true, buffer := [1] }
     { recording := false, streamOpen := false, buffer := [1] } [1] (by decide)⟩

/-! ## C4: the retry bound on empty transcriptions -/

/-- C4: with a transcription engine that returns empty text on every call
(and a recorder stop that produced an artifact), `processRecording` invokes
the transcription exactly 3 times with a 500 ms sleep between consecutive
attempts, then emits the user-facing no-audio warning, transitions to
`StateIdle`, and terminates with exactly this finite trace. -/
theorem emptyTranscription_retries_three_times
    (env : PipelineEnv) (p : String)
    (hstop : env.stopResult = .ok p)
    (htr : ∀ i, env.transcribe i = .ok "") :
    processRecording env =
      ([.transcribeAttempt 1, .sleepMs 500,
        .transcribeAttempt 2, .sleepMs 500,
        .transcribeAttempt 3,
        .toast "No audio was captured. Please try speaking louder or check your microphone." "warning",
        .stateChanged .StateIdle], .StateIdle) := by
  have hfun : env.transcribe = fun _ => Except.ok "" := funext htr
  have hloop : retryAux env.transcribe 1 maxRetries =
      ([.transcribeAttempt 1, .sleepMs 500,
        .transcribeAttempt 2, .sleepMs 500,
        .transcribeAttempt 3], .ok "") := by
    rw [hfun]; decide
  unfold processRecording
  rw [hstop, hloop]
  rfl

/-- Witness for C4: the always-empty transcription stub. -/
theorem emptyTranscription_retries_three_times_witness :
    (fun env : PipelineEnv =>
      env.stopResult = .ok "rec.wav" ∧
      (∀ i, env.transcribe i = .ok "") ∧
      (processRecording env).1.countP
          (fun em => match em with | .transcribeAttempt _ => true | _ => false) = 3 ∧
      (processRecording env).2 = .StateIdle)
      { stopResult := .ok "rec.wav", transcribe := fun _ => .ok "",
        refine := fun _ _ => .ok "", mode := "casual" } := by
  have h := emptyTranscription_retries_three_times
    { stopResult := .ok "rec.wav", transcribe := fun _ => .ok "",
      refine := fun _ _ => .ok "", mode := "casual" }
    "rec.wav" rfl (fun _ => rfl)
  exact ⟨rfl, fun _ => rfl, by rw [h]; rfl, by rw [h]⟩

/-! ## C3: refinement failure is surfaced, raw text never delivered -/

/-- C3: when the recorder stop succeeded and the transcription retry phase
produced non-empty text that is not a blank-audio marker, a refinement
error makes `processRecording` emit the error toast containing the
underlying message and transition to `StateIdle`, and neither the raw text
nor anything else is handed to the clipboard/injection collaborator: the
trace contains no `clipboardCopy` and no `injectText` effect at all. -/
theorem refinementError_aborts_without_fallback
    (env : PipelineEnv) (p raw e : String)
    (hstop : env.stopResult = .ok p)
    (hret : (retryAux env.transcribe 1 maxRetries).2 = .ok raw)
    (hne : raw ≠ "") (hnm : raw ∉ blankMarkers)
    (href : env.refine raw env.mode = .error e) :
    (processRecording env).2 = .StateIdle ∧
    Emit.toast ("Gemini error: " ++ e) "error" ∈ (processRecording env).1 ∧
    ∀ t, Emit.clipboardCopy t ∉ (processRecording env).1 ∧
         Emit.injectText t ∉ (processRecording env).1 := by
  have hcond : ¬(raw = "[BLANK_AUDIO]" ∨ raw = "(blank audio)" ∨ raw = "[NO SPEECH]") := by
    simpa [blankMarkers] using hnm
  have hpr : processRecording env =
      ((retryAux env.transcribe 1 maxRetries).1 ++
        [.refineCall raw env.mode,
         .toast ("Gemini error: " ++ e) "error",
         .stateChanged .StateIdle], .StateIdle) := by
    simp only [processRecording, hstop, hret]
    rw [if_neg hne, if_neg hcond, href]
  rw [hpr]
  refine ⟨rfl, by simp, fun t => ⟨?_, ?_⟩⟩ <;>
  · intro hmem
    rw [List.mem_append] at hmem
    rcases hmem with hmem | hmem
    · rcases retryAux_emit_shape env.transcribe maxRetries 1 _ hmem with ⟨n, hn⟩ | hn <;>
        simp at hn
    · simp at hmem

/-- Witness for C3: transcription "hello world", refinement fails with a
network error. -/
theorem refinementError_aborts_without_fallback_witness :
    (fun env : PipelineEnv =>
      env.stopResult = .ok "rec.wav" ∧
      (retryAux env.transcribe 1 maxRetries).2 = .ok "hello world" ∧
      (processRecording env).2 = .StateIdle ∧
      Emit.toast ("Gemini error: " ++ "network timeout") "error" ∈ (processRecording env).1 ∧
      ∀ t, Emit.clipboardCopy t ∉ (processRecording env).1 ∧
           Emit.injectText t ∉ (processRecording env).1)
      { stopResult := .ok "rec.wav", transcribe := fun _ => .ok "hello world",
        refine := fun _ _ => .error "network timeout", mode := "casual" } := by
  have h := refinementError_aborts_without_fallback
    { stopResult := .ok "rec.wav", transcribe := fun _ => .ok "hello world",
      refine := fun _ _ => .error "network timeout", mode := "casual" }
    "rec.wav" "hello world" "network timeout"
    rfl (by decide) (by decide) (by decide) rfl
  exact ⟨rfl, by decide, h⟩

/-! ## C6: blank-audio markers are an exact-match allowlist -/

/-- C6: after a successful stop and a retry phase yielding non-empty text
`raw`, `processRecording` treats `raw` as "no speech" precisely when it is
exactly one of the three marker strings: in that case it emits the warning
toast and goes to `StateIdle` without ever calling the refinement engine,
while any other non-empty `raw` — including strings that merely contain a
marker as a substring — is passed to the refinement engine as content. -/
theorem blankMarker_exact_match_allowlist
    (env : PipelineEnv) (p raw : String)
    (hstop : env.stopResult = .ok p)
    (hret : (retryAux env.transcribe 1 maxRetries).2 = .ok raw)
    (hne : raw ≠ "") :
    (raw ∈ blankMarkers →
      processRecording env =
        ((retryAux env.transcribe 1 maxRetries).1 ++
         [.toast "No speech detected. Please try speaking into your microphone." "warning",
          .stateChanged .StateIdle], .StateIdle) ∧
      ∀ t m, Emit.refineCall t m ∉ (processRecording env).1) ∧
    (raw ∉ blankMarkers →
      Emit.refineCall raw env.mode ∈ (processRecording env).1) := by
  constructor
  · intro hmem
    have hcond : raw = "[BLANK_AUDIO]" ∨ raw = "(blank audio)" ∨ raw = "[NO SPEECH]" := by
      simpa [blankMarkers] using hmem
    have hpr : processRecording env =
        ((retryAux env.transcribe 1 maxRetries).1 ++
         [.toast "No speech detected. Please try speaking into your microphone." "warning",
          .stateChanged .StateIdle], .StateIdle) := by
      simp only [processRecording, hstop, hret]
      rw [if_neg hne, if_pos hcond]
    refine ⟨hpr, fun t m => ?_⟩
    rw [hpr]
    intro hmem2
    rw [List.mem_append] at hmem2
    rcases hmem2 with hmem2 | hmem2
    · rcases retryAux_emit_shape env.transcribe maxRetries 1 _ hmem2 with ⟨n, hn⟩ | hn <;>
        simp at hn
    · simp at hmem2
  · intro hnm
    have hcond : ¬(raw = "[BLANK_AUDIO]" ∨ raw = "(blank audio)" ∨ raw = "[NO SPEECH]") := by
      simpa [blankMarkers] using hnm
    rcases href : env.refine raw env.mode with e | pol <;>
    · simp only [processRecording, hstop, hret]
      rw [if_neg hne, if_neg hcond, href]
      simp

/-- Witness for C6: the exact marker `"[BLANK_AUDIO]"` is dropped as no
speech, while `"[BLANK_AUDIO] hello"` is refined as content. -/
theorem blankMarker_exact_match_allowlist_witness :
    (fun envA envB : PipelineEnv =>
      (retryAux envA.transcribe 1 maxRetries).2 = .ok "[BLANK_AUDIO]" ∧
      "[BLANK_AUDIO]" ∈ blankMarkers ∧
      (∀ t m, Emit.refineCall t m ∉ (processRecording envA).1) ∧
      (retryAux envB.transcribe 1 maxRetries).2 = .ok "[BLANK_AUDIO] hello" ∧
      "[BLANK_AUDIO] hello" ∉ blankMarkers ∧
      Emit.refineCall "[BLANK_AUDIO] hello" envB.mode ∈ (processRecording envB).1)
      { stopResult := .ok "rec.wav", transcribe := fun _ => .ok "[BLANK_AUDIO]",
        refine := fun _ _ => .ok "polished", mode := "casual" }
      { stopResult := .ok "rec.wav", transcribe := fun _ => .ok "[BLANK_AUDIO] hello",
        refine := fun _ _ => .ok "polished", mode := "casual" } := by
  have hA := (blankMarker_exact_match_allowlist
    { stopResult := .ok "rec.wav", transcribe := fun _ => .ok "[BLANK_AUDIO]",
      refine := fun _ _ => .ok "polished", mode := "casual" }
    "rec.wav" "[BLANK_AUDIO]" rfl (by decide) (by decide)).1 (by decide)
  have hB := (blankMarker_exact_match_allowlist
    { stopResult := .ok "rec.wav", transcribe := fun _ => .ok "[BLANK_AUDIO] hello",
      refine := fun _ _ => .ok "polished", mode := "casual" }
    "rec.wav" "[BLANK_AUDIO] hello" rfl (by decide) (by decide)).2 (by decide)
  exact ⟨by decide, by decide, hA.2, by decide, by decide, hB⟩

/-! ## Hotkey reconfiguration (`Manager.handleReconfigure`,
`App.SetPushToTalkHotkey`) -/

/-- A hotkey object (`*hotkey.Hotkey`): the parsed combination and whether
its `Register()` call succeeded. -/
structure HK where
  mods : List Modifier
  key : Key
  registered : Bool
deriving DecidableEq, Repr

/-- The Manager's two hotkey slots (`handsFreeHK`, `pushToTalkHK`), `none`
standing for a nil pointer. -/
structure Bindings where
  handsFreeHK : Option HK
  pushToTalkHK : Option HK
deriving DecidableEq, Repr

/-- `Manager.handleReconfigure`: unregisters and nils BOTH old hotkeys
first (the old bindings are discarded regardless of what follows), then
parses and registers the new hands-free binding (when non-empty), then the
new push-to-talk binding (when non-empty); a push-to-talk failure also
unregisters the just-registered hands-free binding. OS registration success
is the oracle `regOk`. Returns the new slots and `some errMsg` on failure.
Mirrors the Go code's slot contents exactly, including the detail that on a
`Register()` failure the failing slot still holds the new (unregistered)
object. -/
def Manager.handleReconfigure (regOk : List Modifier → Key → Bool)
    (_old : Bindings) (handsFreeStr pttStr : String) :
    Bindings × Option String :=
  let b : Bindings := { handsFreeHK := none, pushToTalkHK := none }
  let step1 : Bindings × Option String :=
    if handsFreeStr = "" then (b, none)
    else
      match parseHotkey handsFreeStr with
      | .error e => (b, some ("invalid hands-free hotkey: " ++ e))
      | .ok (mods, key) =>
        let hk : HK := { mods := mods, key := key, registered := regOk mods key }
        let b := { b with handsFreeHK := some hk }
        if regOk mods key = false then (b, some "failed to register hands-free")
        else (b, none)
  match step1 with
  | (b, some e) => (b, some e)
  | (b, none) =>
    if pttStr = "" then (b, none)
    else
      match parseHotkey pttStr with
      | .error e => ({ b with handsFreeHK := none }, some ("invalid ptt hotkey: " ++ e))
      | .ok (mods, key) =>
        let hk : HK := { mods := mods, key := key, registered := regOk mods key }
        let b := { b with pushToTalkHK := some hk }
        if regOk mods key = false then
          ({ b with handsFreeHK := none }, some "failed to register ptt")
        else (b, none)

/-- The two hotkey strings held in the `Config`. -/
structure HotkeyConfig where
  handsFreeHotkey : String
  pushToTalkHotkey : String
deriving DecidableEq, Repr

/-- `App.reloadHotkeys` → `Manager.Update`: reconfigure with the current
config. The request/response round trip through the manager's event loop is
modelled as the synchronous call it amounts to once the loop drains the
request (the 5 s timeout path is a wall-clock concurrency behavior outside
this model). -/
def App.reloadHotkeys (regOk : List Modifier → Key → Bool)
    (b : Bindings) (c : HotkeyConfig) : Bindings × Option String :=
  Manager.handleReconfigure regOk b c.handsFreeHotkey c.pushToTalkHotkey

/-- `App.SetPushToTalkHotkey`: store the new value in config and reload;
on a reload error, revert the config to the old value and reload again to
restore the previous registrations, returning the original error. -/
def App.SetPushToTalkHotkey (regOk : List Modifier → Key → Bool)
    (b : Bindings) (c : HotkeyConfig) (hotkeyStr : String) :
    Bindings × HotkeyConfig × Option String :=
  let old := c.pushToTalkHotkey
  let c := { c with pushToTalkHotkey := hotkeyStr }
  match App.reloadHotkeys regOk b c with
  | (b1, some e) =>
    let c := { c with pushToTalkHotkey := old }
    let res := App.reloadHotkeys regOk b1 c
    (res.1, c, some e)
  | (b1, none) => (b1, c, none)

/-- C2 (counterexample): `Manager.handleReconfigure` itself is not
transactional in the claimed sense. Starting from a registered old pair
(cmd+shift+space / cmd+shift+p) and reconfiguring to a valid hands-free
with an unparseable push-to-talk, the new hands-free IS rolled back — but
the old pair is NOT restored: both slots end up nil/unregistered, not at
their pre-reconfiguration values. -/
theorem handleReconfigure_failure_not_restoring_old_pair :
    (fun out : Bindings × Option String =>
      out.2 = some "invalid ptt hotkey: unknown key: foo" ∧
      out.1.handsFreeHK = none ∧
      out.1.pushToTalkHK = none ∧
      out.1 ≠ { handsFreeHK := some { mods := [.ModCmd, .ModShift], key := .KeySpace,
                                      registered := true },
                pushToTalkHK := some { mods := [.ModCmd, .ModShift], key := .KeyP,
                                       registered := true } })
      (Manager.handleReconfigure (fun _ _ => true)
        { handsFreeHK := some { mods := [.ModCmd, .ModShift], key := .KeySpace,
                                registered := true },
          pushToTalkHK := some { mods := [.ModCmd, .ModShift], key := .KeyP,
                                 registered := true } }
        "cmd+shift+space" "cmd+foo") := by
  decide

/-- C2 (amended): the transaction is completed one level up. When
`App.SetPushToTalkHotkey` is given a new push-to-talk string whose reload
fails (parse or registration failure), and the old pair in the config is
non-empty, parseable and registrable, the operation reverts the config and
re-registers the old pair: both bindings end at their pre-reconfiguration
values and the error is surfaced. (Inside the failed
`Manager.handleReconfigure` both slots are transiently unregistered — see
the counterexample — and the restoration itself relies on the old pair
still registering successfully.) -/
theorem setPushToTalkHotkey_restores_old_pair
    (regOk : List Modifier → Key → Bool) (b : Bindings) (c : HotkeyConfig)
    (s e : String) (hm pm : List Modifier) (hkey pkey : Key)
    (hhf : parseHotkey c.handsFreeHotkey = .ok (hm, hkey))
    (hptt : parseHotkey c.pushToTalkHotkey = .ok (pm, pkey))
    (hhfne : ¬ c.handsFreeHotkey = "") (hpttne : ¬ c.pushToTalkHotkey = "")
    (hreg1 : regOk hm hkey = true) (hreg2 : regOk pm pkey = true)
    (herr : (App.reloadHotkeys regOk b { c with pushToTalkHotkey := s }).2 = some e) :
    App.SetPushToTalkHotkey regOk b c s =
      ({ handsFreeHK := some { mods := hm, key := hkey, registered := true },
         pushToTalkHK := some { mods := pm, key := pkey, registered := true } },
       c, some e) := by
  obtain ⟨chf, cptt⟩ := c
  dsimp only at hhf hptt hhfne hpttne herr
  have hrestore : ∀ b' : Bindings,
      Manager.handleReconfigure regOk b' chf cptt =
        ({ handsFreeHK := some { mods := hm, key := hkey, registered := true },
           pushToTalkHK := some { mods := pm, key := pkey, registered := true } },
         none) := by
    intro b'
    simp only [Manager.handleReconfigure, hhfne, hhf, hreg1, hpttne, hptt, hreg2,
               if_false, Bool.true_eq_false, ite_false]
  rcases h2 : App.reloadHotkeys regOk b { handsFreeHotkey := chf, pushToTalkHotkey := s }
    with ⟨b1, r⟩
  rw [h2] at herr
  dsimp only at herr
  subst herr
  unfold App.SetPushToTalkHotkey
  dsimp only
  rw [h2]
  dsimp only
  unfold App.reloadHotkeys
  dsimp only
  rw [hrestore b1]

/-- Witness for C2 (amended): old pair cmd+shift+space / cmd+shift+p, new
push-to-talk "cmd+foo" fails to parse; the old pair is restored. -/
theorem setPushToTalkHotkey_restores_old_pair_witness :
    App.SetPushToTalkHotkey (fun _ _ => true)
      { handsFreeHK := none, pushToTalkHK := none }
      { handsFreeHotkey := "cmd+shift+space", pushToTalkHotkey := "cmd+shift+p" }
      "cmd+foo" =
      ({ handsFreeHK := some { mods := [.ModCmd, .ModShift], key := .KeySpace,
                               registered := true },
         pushToTalkHK := some { mods := [.ModCmd, .ModShift], key := .KeyP,
                                registered := true } },
       { handsFreeHotkey := "cmd+shift+space", pushToTalkHotkey := "cmd+shift+p" },
       some "invalid ptt hotkey: unknown key: foo") :=
  setPushToTalkHotkey_restores_old_pair (fun _ _ => true)
    { handsFreeHK := none, pushToTalkHK := none }
    { handsFreeHotkey := "cmd+shift+space", pushToTalkHotkey := "cmd+shift+p" }
    "cmd+foo" "invalid ptt hotkey: unknown key: foo"
    [.ModCmd, .ModShift] [.ModCmd, .ModShift] .KeySpace .KeyP
    (by decide) (by decide) (by decide) (by decide) rfl rfl (by decide)

/-! ## C9: the hotkey grammar accepted by the parser -/

/-- The known modifier tokens (the case labels of the modifier switch). -/
def modifierTokens : List String :=
  ["cmd", "command", "super", "ctrl", "control", "shift", "alt", "option", "opt"]

/-- The known terminal key tokens (the keys of `parseKey`'s key map). -/
def keyTokens : List String :=
  ["a", "b", "c", "d", "e", "f", "g", "h", "i", "j", "k", "l", "m",
   "n", "o", "p", "q", "r", "s", "t", "u", "v", "w", "x", "y", "z",
   "0", "1", "2", "3", "4", "5", "6", "7", "8", "9",
   "space", "return", "enter", "escape", "esc", "tab"]

/-- The spec's binding-string grammar `modifier(+modifier)*+key`: the
(lowercased) `'+'`-separated parts are a non-empty list of known modifier
tokens followed by exactly one known key token. -/
def matchesHotkeyGrammar (s : String) : Prop :=
  ∃ mods key, mods ≠ [] ∧ lowerParts s = mods ++ [key] ∧
    (∀ m ∈ mods, m ∈ modifierTokens) ∧ key ∈ keyTokens

/-- Helper: `parseModifier` succeeds exactly on the known modifier tokens. -/
theorem parseModifier_isOk (p : String) :
    (parseModifier p).isOk ↔ p ∈ modifierTokens := by
  unfold parseModifier
  split <;> simp_all [modifierTokens, Except.isOk, Except.toBool]

/-- Helper: `parseKey` succeeds exactly on the known key tokens. -/
theorem parseKey_isOk (p : String) :
    (parseKey p).isOk ↔ p ∈ keyTokens := by
  unfold parseKey
  split <;> simp_all [keyTokens, Except.isOk, Except.toBool]

/-- Helper: the modifier loop succeeds exactly when every part is a known
modifier token. -/
theorem parseModifiers_isOk (ps : List String) :
    (parseModifiers ps).isOk ↔ ∀ p ∈ ps, p ∈ modifierTokens := by
  induction ps with
  | nil => simp [parseModifiers, Except.isOk, Except.toBool]
  | cons p ps ih =>
    rw [parseModifiers]
    rcases hm : parseModifier p with e | m
    · have hp : ¬ p ∈ modifierTokens := by
        rw [← parseModifier_isOk, hm]; simp [Except.isOk, Except.toBool]
      simp [Except.isOk, Except.toBool, hp]
    · have hp : p ∈ modifierTokens := by
        rw [← parseModifier_isOk, hm]; simp [Except.isOk, Except.toBool]
      rcases hms : parseModifiers ps with e2 | ms <;>
        rw [hms] at ih <;>
        simp [Except.isOk, Except.toBool, hp, ← ih]

/-- Helper: a list that ends in an element is recovered from its
`dropLast` and `getLastD`. -/
theorem dropLast_append_getLastD (l : List String) (h : l ≠ []) :
    l.dropLast ++ [l.getLastD ""] = l := by
  induction l with
  | nil => simp at h
  | cons a l ih =>
    cases l with
    | nil => rfl
    | cons b l =>
      have := ih (by simp)
      simpa [List.dropLast, List.getLastD] using this

/-- C9: `parseHotkey` accepts a string iff it matches the grammar
`modifier(+modifier)*+key` — at least one modifier and exactly one terminal
key, all drawn from the known token sets. Consequently a string with fewer
than two `'+'`-separated parts, an unknown modifier token, or an unknown
key token yields a parse error. -/
theorem parseHotkey_accepts_iff_grammar (s : String) :
    (parseHotkey s).isOk ↔ matchesHotkeyGrammar s := by
  unfold parseHotkey matchesHotkeyGrammar
  by_cases hlen : (lowerParts s).length < 2
  · rw [if_pos hlen]
    simp only [Except.isOk, Except.toBool, Bool.false_eq_true, false_iff]
    rintro ⟨mods, key, hne, hdec, -, -⟩
    rw [hdec, List.length_append, List.length_singleton] at hlen
    have : 1 ≤ mods.length := List.length_pos.mpr hne
    omega
  · rw [if_neg hlen]
    have hnil : lowerParts s ≠ [] := by
      intro hcontra
      rw [hcontra] at hlen
      simp at hlen
    constructor
    · intro hok
      rcases hmods : parseModifiers (lowerParts s).dropLast with e | ms <;>
        rw [hmods] at hok
      · simp [Except.isOk, Except.toBool] at hok
      · rcases hkey : parseKey ((lowerParts s).getLastD "") with e | k <;>
          rw [hkey] at hok
        · simp [Except.isOk, Except.toBool] at hok
        · refine ⟨(lowerParts s).dropLast, (lowerParts s).getLastD "", ?_,
                  (dropLast_append_getLastD _ hnil).symm, ?_, ?_⟩
          · intro hcontra
            have h2 : 2 ≤ (lowerParts s).length := Nat.le_of_not_lt hlen
            have : (lowerParts s).dropLast.length = (lowerParts s).length - 1 := by
              simp [List.length_dropLast]
            rw [hcontra] at this
            simp at this
            omega
          · have := (parseModifiers_isOk (lowerParts s).dropLast).mp (by
              rw [hmods]; simp [Except.isOk, Except.toBool])
            exact this
          · exact (parseKey_isOk _).mp (by
              rw [hkey]; simp [Except.isOk, Except.toBool])
    · rintro ⟨mods, key, hne, hdec, hmem, hkeymem⟩
      have hdl : (lowerParts s).dropLast = mods := by
        rw [hdec]; exact List.dropLast_concat
      have hgl : (lowerParts s).getLastD "" = key := by
        rw [hdec]
        rw [List.getLastD_eq_getLast?, List.getLast?_concat]
        rfl
      have hmods : (parseModifiers (lowerParts s).dropLast).isOk := by
        rw [hdl, parseModifiers_isOk]; exact hmem
      have hkey : (parseKey ((lowerParts s).getLastD "")).isOk := by
        rw [hgl, parseKey_isOk]; exact hkeymem
      rcases h1 : parseModifiers (lowerParts s).dropLast with e | ms
      · rw [h1] at hmods; simp [Except.isOk, Except.toBool] at hmods
      · rcases h2 : parseKey ((lowerParts s).getLastD "") with e | k
        · rw [h2] at hkey; simp [Except.isOk, Except.toBool] at hkey
        · simp [Except.isOk, Except.toBool]

/-- Witness for C9 at the default hands-free binding string. -/
theorem parseHotkey_accepts_iff_grammar_witness :
    ((parseHotkey "cmd+shift+space").isOk ↔ matchesHotkeyGrammar "cmd+shift+space") ∧
    (parseHotkey "cmd+shift+space").isOk :=
  ⟨parseHotkey_accepts_iff_grammar "cmd+shift+space", by decide⟩

/-! ## C10: case sensitivity of the parser -/

/-- C10 (counterexample): parsing is NOT exactly invariant under case
variation: the too-few-parts error embeds the ORIGINAL string before
lowercasing, so `"CMD"` and its case variant `"cmd"` parse to different
results (`invalid hotkey format: CMD` vs `invalid hotkey format: cmd`). -/
theorem parseHotkey_not_fully_case_invariant :
    parseHotkey "CMD" ≠ parseHotkey "cmd" ∧
    "CMD".data.map lowerChar = "cmd".data.map lowerChar := by
  decide

/-- C10 (amended): parsing is case-insensitive up to the format-error
message. For strings equal after lowercasing: successful results coincide
exactly (same modifiers and key), success/failure agree, a string with
fewer than two parts yields the format error embedding that string's own
original spelling, and with at least two parts the entire results —
including unknown-modifier/unknown-key error messages, which embed the
already-lowercased token — are identical. -/
theorem parseHotkey_case_insensitive_up_to_format_message
    (s t : String) (h : s.data.map lowerChar = t.data.map lowerChar) :
    (∀ r, parseHotkey s = .ok r ↔ parseHotkey t = .ok r) ∧
    ((parseHotkey s).isOk ↔ (parseHotkey t).isOk) ∧
    ((lowerParts s).length < 2 →
      parseHotkey s = .error ("invalid hotkey format: " ++ s) ∧
      parseHotkey t = .error ("invalid hotkey format: " ++ t)) ∧
    (¬ (lowerParts s).length < 2 → parseHotkey s = parseHotkey t) := by
  have hp : lowerParts s = lowerParts t := by
    unfold lowerParts; rw [h]
  by_cases hlen : (lowerParts s).length < 2
  · have hlent : (lowerParts t).length < 2 := by rw [← hp]; exact hlen
    have hs : parseHotkey s = .error ("invalid hotkey format: " ++ s) := by
      unfold parseHotkey; rw [if_pos hlen]
    have ht : parseHotkey t = .error ("invalid hotkey format: " ++ t) := by
      unfold parseHotkey; rw [if_pos hlent]
    refine ⟨fun r => ?_, ?_, fun _ => ⟨hs, ht⟩, fun hcontra => absurd hlen hcontra⟩
    · rw [hs, ht]; simp
    · rw [hs, ht]; simp [Except.isOk, Except.toBool]
  · have hlent : ¬ (lowerParts t).length < 2 := by rw [← hp]; exact hlen
    have heq : parseHotkey s = parseHotkey t := by
      unfold parseHotkey
      rw [if_neg hlen, if_neg hlent, hp]
    exact ⟨fun r => by rw [heq], by rw [heq], fun hcontra => absurd hcontra hlen,
           fun _ => heq⟩

/-- Witness for C10 (amended) at the spec's example pair. -/
theorem parseHotkey_case_insensitive_witness :
    ("CMD+Shift+V".data.map lowerChar = "cmd+shift+v".data.map lowerChar) ∧
    parseHotkey "CMD+Shift+V" = parseHotkey "cmd+shift+v" :=
  ⟨by decide,
   (parseHotkey_case_insensitive_up_to_format_message "CMD+Shift+V" "cmd+shift+v"
     (by decide)).2.2.2 (by decide)⟩

end Voxflow
